import Mathlib

/-!
# Vajra — Provider Abstraction & Adaptive Model Resolution Engine

Shallow embedding of the decision logic of the Vajra VS Code extension
(`src/config.ts`, `src/providers.ts`, `src/extension.ts`), together with
theorems settling the specification claims about it.

Network effects are made explicit: a probe of the self-hosted (Ollama)
server is represented by a `ProbeResult` value (the models the server
reported, or the failure the HTTP call raised), and the stored VS Code
configuration by explicit record values.  Functions that can throw in the
source return `Except String`.
-/

namespace Vajra

/-- Outcome of one HTTP call to the self-hosted server's inventory endpoint
(`GET /api/tags`): either the server answered with a list of model names,
or the call failed (connection refused, or the client-side timeout fired). -/
inductive ProbeResult where
  | ok (models : List String)
  | connectionError
  | timedOut
deriving Repr, DecidableEq

/-- The per-call timeout passed to the inventory request in
`ConfigManager.getAvailableOllamaModels` (`{ timeout: 5000 }`), in
milliseconds. -/
def probeTimeoutMs : Nat := 5000

/-- `ConfigManager.getAvailableOllamaModels` (config.ts:68–78): issues the
inventory request with `probeTimeoutMs` and maps the response to the model
names; the surrounding `try/catch` turns every failure (connection error or
timeout) into the empty list. -/
def getAvailableOllamaModels : ProbeResult → List String
  | .ok models => models
  | .connectionError => []
  | .timedOut => []

/-- `ModelUtils.getInstalledOllamaModels` (modelUtils portion of config.ts,
lines 156–172): issues the same inventory request (with no timeout option)
but its `catch` rethrows `new Error('Ollama not running or not accessible')`
instead of absorbing the failure.  Only the model names are retained here;
the size/modified fields are formatting of the same response entries. -/
def getInstalledOllamaModels : ProbeResult → Except String (List String)
  | .ok models => .ok models
  | .connectionError => .error "Ollama not running or not accessible"
  | .timedOut => .error "Ollama not running or not accessible"

/-- The fixed ordered priority list of known-good coding models walked by
`ConfigManager.getSmartDefaultModel` (config.ts:88–98). -/
def codingPriority : List String :=
  [ "qwen2.5-coder:7b"
  , "qwen2.5-coder:1.5b"
  , "deepseek-coder-v2:16b"
  , "deepseek-coder:6.7b"
  , "codellama:7b"
  , "codellama:13b"
  , "starcoder2:7b"
  , "llama3.3:70b"
  , "llama3.2:3b" ]

/-- The pure body of `ConfigManager.getSmartDefaultModel` (config.ts:80–107),
applied to the inventory returned by the probe: if no models are available
return the literal `'qwen2.5-coder:7b'`; otherwise return the first entry of
`codingPriority` contained in the inventory, and if none is, the inventory's
first element (`availableModels[0]`). -/
def getSmartDefaultModel : List String → String
  | [] => "qwen2.5-coder:7b"
  | m :: ms =>
    match codingPriority.find? (fun preferred => (m :: ms).contains preferred) with
    | some preferred => preferred
    | none => m

/-- `ConfigManager.getSmartDefaultModel` including its outer `try/catch`
(config.ts:108–110): if obtaining the inventory throws, the `catch` returns
the literal `'qwen2.5-coder:7b'`; otherwise the pure body runs on the
retrieved inventory. -/
def getSmartDefaultModelSafe : Except Unit (List String) → String
  | .error _ => "qwen2.5-coder:7b"
  | .ok models => getSmartDefaultModel models

/-- Result of asking the resolver for a model (spec §3 `ResolutionOutcome`):
the model actually returned, whether the user-visible substitution
notification fired (`requestedModel !== smartDefault` in the source), and
the originally requested model kept for user messaging. -/
structure ResolutionOutcome where
  resolvedModel : String
  wasSubstituted : Bool
  requestedModel : String
deriving Repr, DecidableEq

/-- The message thrown by `ChatProvider.getSmartOllamaModel` when no models
are installed, after being wrapped by that function's own `catch` clause,
which rethrows every caught error with the added prefix `Ollama error: `. -/
def noModelsError : String :=
  "Ollama error: No Ollama models installed. Please install a model first."

/-- `ChatProvider.getSmartOllamaModel` (providers.ts chat portion, lines
656–694), on one inventory snapshot: throw if the inventory is empty;
return the requested model unchanged when it is installed; otherwise fall
back to the smart default, recording whether the substitution notification
fired.  The source probes twice (once directly, once inside
`getSmartDefaultModel`); both reads are of the same snapshot here, matching
the spec's per-request snapshot semantics. -/
def getSmartOllamaModel (requestedModel : String) (availableModels : List String) :
    Except String ResolutionOutcome :=
  if availableModels.length = 0 then
    .error noModelsError
  else if availableModels.contains requestedModel then
    .ok ⟨requestedModel, false, requestedModel⟩
  else
    .ok ⟨getSmartDefaultModel availableModels,
         requestedModel != getSmartDefaultModel availableModels, requestedModel⟩

/-- What `ChatProvider.handleMessage` does with an Ollama request: either
the adapter's send operation is invoked with the resolved model, or the
resolution error propagates to `handleMessage`'s catch and no send happens. -/
inductive SendOutcome where
  | sent (model : String)
  | errorHandled (message : String)
deriving Repr, DecidableEq

/-- The Ollama path of `ChatProvider.handleMessage` (providers.ts chat
portion, lines 629–634 and 648–650): resolve the configured model against
the snapshot, then call `sendMessage` with the resolved model; a resolution
failure is caught before any send is attempted. -/
def handleMessageOllama (requestedModel : String) (availableModels : List String) :
    SendOutcome :=
  match getSmartOllamaModel requestedModel availableModels with
  | .ok outcome => .sent outcome.resolvedModel
  | .error e => .errorHandled e

/-- JS `String.prototype.includes` on character lists: `prefixMatch pat l`
is true when `pat` is an initial segment of `l`. -/
def prefixMatch : List Char → List Char → Bool
  | [], _ => true
  | _ :: _, [] => false
  | a :: as, b :: bs => a == b && prefixMatch as bs

/-- `substrMatch pat l` is true when `pat` occurs contiguously in `l`. -/
def substrMatch (pat : List Char) : List Char → Bool
  | [] => pat.isEmpty
  | c :: rest => prefixMatch pat (c :: rest) || substrMatch pat rest

/-- JS `message.includes(pat)`. -/
def strIncludes (s pat : String) : Bool :=
  substrMatch pat.toList s.toList

/-- The failure taxonomy of the classifier (spec §7), restricted to the
kinds `ChatProvider.handleError` distinguishes. -/
inductive FailureKind where
  | serverUnreachable
  | modelNotFound
  | unclassified
deriving Repr, DecidableEq

/-- The replacement message installed by `handleError`'s first branch. -/
def serverUnreachableMessage : String :=
  "Ollama server not running. Please start Ollama first."

/-- The classification branch structure of `ChatProvider.handleError`
(providers.ts chat portion, lines 699–751): messages containing
`'ECONNREFUSED'` or `'not running'` classify as server-unreachable (and the
message is replaced); otherwise messages containing `'not found'` or
`'does not exist'` classify as model-not-found (message kept); anything
else falls through unclassified with the message passed through unchanged. -/
def handleError (rawMessage : String) : FailureKind × String :=
  if strIncludes rawMessage "ECONNREFUSED" || strIncludes rawMessage "not running" then
    (.serverUnreachable, serverUnreachableMessage)
  else if strIncludes rawMessage "not found" || strIncludes rawMessage "does not exist" then
    (.modelNotFound, rawMessage)
  else
    (.unclassified, rawMessage)

/-- Spec §3 `HardwareProfile`: coarse resource constraints. -/
structure HardwareProfile where
  memoryGB : Int
  hasAccelerator : Bool
deriving Repr, DecidableEq

/-- Spec §3 `Recommendation`, as produced by
`ProviderManager.getModelForHardware`. -/
structure Recommendation where
  provider : String
  model : String
  notes : String
deriving Repr, DecidableEq

/-- `ProviderManager.getModelForHardware` (providers.ts:522–548): four
tiers keyed by RAM thresholds and accelerator presence. -/
def getModelForHardware (ramGB : Int) (hasGPU : Bool) : Recommendation :=
  if 32 ≤ ramGB ∧ hasGPU = true then
    ⟨"ollama", "qwen2.5-coder:32b", "High-end: Best coding performance"⟩
  else if 16 ≤ ramGB ∧ hasGPU = true then
    ⟨"ollama", "qwen2.5-coder:14b", "Mid-range: Excellent coding performance"⟩
  else if 8 ≤ ramGB then
    ⟨"ollama", "qwen2.5-coder:7b", "Standard: Efficient and capable"⟩
  else
    ⟨"ollama", "qwen2.5-coder:1.5b", "Lightweight: Basic coding assistance"⟩

/-- The spec's Hardware Advisor entry point `recommend(profile)`, which the
source realises as `getModelForHardware(ram, hasGPU)`. -/
def recommend (profile : HardwareProfile) : Recommendation :=
  getModelForHardware profile.memoryGB profile.hasAccelerator

/-- One backend adapter as registered in `ProviderManager`: its identifier
and, for credential-bearing backends, the name of the configuration setting
its `isConfigured` and `sendMessage` read (`none` for the self-hosted
Ollama backend, whose `isConfigured` is the constant `true`). -/
structure ProviderInfo where
  name : String
  keySetting : Option String
deriving Repr, DecidableEq

/-- JS double-negation truthiness of a string read from configuration:
`false` when the setting is absent or the empty string. -/
def truthy : Option String → Bool
  | none => false
  | some s => !s.isEmpty

/-- The adapters in `ProviderManager`'s constructor registration order
(providers.ts:483–494), each paired with the API-key setting it reads. -/
def registeredProviders : List ProviderInfo :=
  [ ⟨"openai", some "openaiApiKey"⟩
  , ⟨"anthropic", some "anthropicApiKey"⟩
  , ⟨"qwen", some "qwenApiKey"⟩
  , ⟨"deepseek", some "deepseekApiKey"⟩
  , ⟨"mistral", some "mistralApiKey"⟩
  , ⟨"gemini", some "geminiApiKey"⟩
  , ⟨"groq", some "groqApiKey"⟩
  , ⟨"ollama", none⟩
  , ⟨"openrouter", some "openrouterApiKey"⟩
  , ⟨"huggingface", some "huggingfaceApiKey"⟩ ]

/-- The `isConfigured` method of each adapter: credential-bearing backends
return the truthiness of their API-key setting; the Ollama adapter returns
`true` unconditionally (providers.ts:356–358). -/
def isConfiguredFor (cfg : String → Option String) (p : ProviderInfo) : Bool :=
  match p.keySetting with
  | some k => truthy (cfg k)
  | none => true

/-- The first step a `sendMessage` implementation performs: either it
throws the credential-missing error, or it issues the HTTP request. -/
inductive SendStep where
  | credentialError
  | networkRequest
deriving Repr, DecidableEq

/-- The prefix of every adapter's `sendMessage`: credential-bearing
backends read their API key and throw `... API key not configured` when it
is falsy, before building any HTTP request; the Ollama adapter goes
straight to the request. -/
def sendFirstStep (cfg : String → Option String) (p : ProviderInfo) : SendStep :=
  match p.keySetting with
  | some k =>
    match cfg k with
    | none => .credentialError
    | some s => if s.isEmpty then .credentialError else .networkRequest
  | none => .networkRequest

/-- The stored VS Code configuration as touched by auto-setup and provider
selection: the two fields those code paths update, plus all other settings
kept abstract. -/
structure StoredConfig where
  defaultProvider : Option String
  defaultModel : Option String
  other : String → Option String

/-- `ConfigManager.autoSetup` (config.ts:113–145): skip unless the current
default provider reads as one of the factory defaults `'ollama'` or
`'groq'`; then probe the inventory, and only when at least one model is
installed overwrite `defaultProvider` with `'ollama'` and `defaultModel`
with the smart default computed from that inventory. -/
def autoSetup (cfg : StoredConfig) (probe : ProbeResult) : StoredConfig :=
  if cfg.defaultProvider ≠ some "ollama" ∧ cfg.defaultProvider ≠ some "groq" then
    cfg
  else
    let availableModels := getAvailableOllamaModels probe
    if 0 < availableModels.length then
      { cfg with defaultProvider := some "ollama"
               , defaultModel := some (getSmartDefaultModel availableModels) }
    else
      cfg

/-- The configuration updates performed by the `vajra.selectProvider`
command handler (extension.ts) once the user picks a backend: store the
selection as `defaultProvider`, and when the selection is `'ollama'` also
store the smart default model computed from the current probe. -/
def selectProviderUpdate (cfg : StoredConfig) (selectedValue : String)
    (probe : ProbeResult) : StoredConfig :=
  if selectedValue = "ollama" then
    { cfg with defaultProvider := some selectedValue
             , defaultModel := some (getSmartDefaultModel (getAvailableOllamaModels probe)) }
  else
    { cfg with defaultProvider := some selectedValue }

/-! ## Helper lemmas -/

/-- `List.find?` returns the first element satisfying the predicate: the
result splits the list into an unsatisfying prefix, the hit, and a tail. -/
theorem find?_first_split {α : Type} (p : α → Bool) :
    ∀ (l : List α) (b : α), l.find? p = some b →
      ∃ pre post, l = pre ++ b :: post ∧ p b = true ∧ ∀ a ∈ pre, p a = false := by
  intro l
  induction l with
  | nil => intro b h; simp at h
  | cons a as ih =>
    intro b h
    by_cases hpa : p a = true
    · rw [List.find?_cons_of_pos _ hpa] at h
      obtain rfl : a = b := by injection h
      exact ⟨[], as, rfl, hpa, by simp⟩
    · rw [List.find?_cons_of_neg _ hpa] at h
      obtain ⟨pre, post, rfl, hb, hpre⟩ := ih b h
      simp only [Bool.not_eq_true] at hpa
      refine ⟨a :: pre, post, rfl, hb, ?_⟩
      intro x hx
      rcases List.mem_cons.mp hx with rfl | hx
      · exact hpa
      · exact hpre x hx

/-- On a non-empty inventory the smart default is an installed model. -/
theorem getSmartDefaultModel_mem (m : String) (ms : List String) :
    getSmartDefaultModel (m :: ms) ∈ m :: ms := by
  simp only [getSmartDefaultModel]
  cases hfind : codingPriority.find? (fun preferred => (m :: ms).contains preferred) with
  | some preferred =>
    have hp := List.find?_some hfind
    simpa using hp
  | none => simp

/-- The smart default is an installed model or the hard-coded literal. -/
theorem getSmartDefaultModel_mem_or (models : List String) :
    getSmartDefaultModel models ∈ models ∨
      getSmartDefaultModel models = "qwen2.5-coder:7b" := by
  cases models with
  | nil => exact Or.inr rfl
  | cons m ms => exact Or.inl (getSmartDefaultModel_mem m ms)

/-- On a non-empty inventory, resolution never throws. -/
theorem getSmartOllamaModel_cons_ne_error (req m : String) (ms : List String) (e : String) :
    getSmartOllamaModel req (m :: ms) ≠ Except.error e := by
  unfold getSmartOllamaModel
  rw [if_neg (by simp : ¬ (m :: ms).length = 0)]
  by_cases hc : (m :: ms).contains req = true
  · rw [if_pos hc]; exact fun h => Except.noConfusion h
  · rw [if_neg hc]; exact fun h => Except.noConfusion h

/-! ## Claim theorems -/

/-- Claim C1 (resolver availability guarantee and membership invariant):
for every resolution request whose inventory snapshot has non-empty
installed models, `getSmartOllamaModel` does not fail, and every outcome it
returns resolves to a member of that snapshot's installed models. -/
theorem resolver_availability (requestedModel : String) (installedModels : List String)
    (hne : installedModels ≠ []) :
    (∃ outcome, getSmartOllamaModel requestedModel installedModels = Except.ok outcome) ∧
    (∀ outcome, getSmartOllamaModel requestedModel installedModels = Except.ok outcome →
      outcome.resolvedModel ∈ installedModels) := by
  obtain ⟨m, ms, rfl⟩ : ∃ m ms, installedModels = m :: ms := by
    cases installedModels with
    | nil => exact absurd rfl hne
    | cons m ms => exact ⟨m, ms, rfl⟩
  unfold getSmartOllamaModel
  rw [if_neg (by simp : ¬ (m :: ms).length = 0)]
  by_cases hc : (m :: ms).contains requestedModel = true
  · rw [if_pos hc]
    refine ⟨⟨_, rfl⟩, fun outcome h => ?_⟩
    obtain rfl := (Except.ok.inj h).symm
    simpa using hc
  · rw [if_neg hc]
    refine ⟨⟨_, rfl⟩, fun outcome h => ?_⟩
    obtain rfl := (Except.ok.inj h).symm
    exact getSmartDefaultModel_mem m ms

/-- Witness for C1 at a concrete snapshot. -/
theorem resolver_availability_witness :
    (∃ outcome, getSmartOllamaModel "qwen2.5-coder:7b" ["llama2:latest"] =
      Except.ok outcome) ∧
    (∀ outcome, getSmartOllamaModel "qwen2.5-coder:7b" ["llama2:latest"] =
      Except.ok outcome → outcome.resolvedModel ∈ ["llama2:latest"]) :=
  resolver_availability "qwen2.5-coder:7b" ["llama2:latest"] (by simp)

/-- Claim C2 (resolver failure condition): resolution fails with the
no-model-available error exactly when the snapshot's installed models are
empty; on an empty inventory the error is caught before any send is
attempted, and on a non-empty inventory resolution throws no error at all. -/
theorem resolver_failure_iff (requestedModel : String) (installedModels : List String) :
    (getSmartOllamaModel requestedModel installedModels = Except.error noModelsError ↔
      installedModels = []) ∧
    (installedModels = [] →
      handleMessageOllama requestedModel installedModels =
        SendOutcome.errorHandled noModelsError) ∧
    (installedModels ≠ [] →
      ∀ e, getSmartOllamaModel requestedModel installedModels ≠ Except.error e) := by
  cases installedModels with
  | nil =>
    refine ⟨?_, fun _ => rfl, fun h => absurd rfl h⟩
    simp [getSmartOllamaModel]
  | cons m ms =>
    refine ⟨⟨fun h => absurd h (getSmartOllamaModel_cons_ne_error _ _ _ _), fun h => ?_⟩,
      fun h => ?_, fun _ => getSmartOllamaModel_cons_ne_error _ _ _⟩
    · exact absurd h (by simp)
    · exact absurd h (by simp)

/-- Witness for C2 at the empty inventory. -/
theorem resolver_failure_iff_witness :
    handleMessageOllama "qwen2.5-coder:7b" [] =
      SendOutcome.errorHandled noModelsError :=
  (resolver_failure_iff "qwen2.5-coder:7b" []).2.1 rfl

/-- Claim C3 (resolver substitution selection): when the requested model is
not installed and the inventory is non-empty, resolution succeeds with
`wasSubstituted = true` and returns either the first entry of the fixed
priority list that is installed (every earlier entry being absent), or — if
no priority entry is installed — the first element of the inventory. -/
theorem resolver_substitution (requestedModel : String) (installedModels : List String)
    (hne : installedModels ≠ []) (hnotin : requestedModel ∉ installedModels) :
    ∃ outcome, getSmartOllamaModel requestedModel installedModels = Except.ok outcome ∧
      outcome.wasSubstituted = true ∧
      outcome.requestedModel = requestedModel ∧
      ((∃ pre post, codingPriority = pre ++ outcome.resolvedModel :: post ∧
          outcome.resolvedModel ∈ installedModels ∧
          ∀ q ∈ pre, q ∉ installedModels) ∨
        ((∀ q ∈ codingPriority, q ∉ installedModels) ∧
          outcome.resolvedModel = installedModels.head hne)) := by
  obtain ⟨m, ms, rfl⟩ : ∃ m ms, installedModels = m :: ms := by
    cases installedModels with
    | nil => exact absurd rfl hne
    | cons m ms => exact ⟨m, ms, rfl⟩
  have hc : ¬ (m :: ms).contains requestedModel = true := by simpa using hnotin
  unfold getSmartOllamaModel
  rw [if_neg (by simp : ¬ (m :: ms).length = 0), if_neg hc]
  refine ⟨_, rfl, ?_, rfl, ?_⟩
  · have hmem := getSmartDefaultModel_mem m ms
    have hner : requestedModel ≠ getSmartDefaultModel (m :: ms) :=
      fun h => hnotin (h ▸ hmem)
    simpa [bne_iff_ne] using hner
  · cases hfind : codingPriority.find? (fun preferred => (m :: ms).contains preferred) with
    | some preferred =>
      left
      obtain ⟨pre, post, heq, hpb, hpre⟩ := find?_first_split _ _ _ hfind
      have hres : getSmartDefaultModel (m :: ms) = preferred := by
        simp only [getSmartDefaultModel]
        rw [hfind]
      refine ⟨pre, post, ?_, ?_, ?_⟩
      · show codingPriority = pre ++ getSmartDefaultModel (m :: ms) :: post
        rw [hres]; exact heq
      · show getSmartDefaultModel (m :: ms) ∈ m :: ms
        rw [hres]; simpa using hpb
      · intro q hq hmemq
        have hfalse := hpre q hq
        simp only [Bool.eq_false_iff] at hfalse
        exact hfalse (by simpa using hmemq)
    | none =>
      right
      have hnone := List.find?_eq_none.mp hfind
      have hres : getSmartDefaultModel (m :: ms) = m := by
        simp only [getSmartDefaultModel]
        rw [hfind]
      refine ⟨fun q hq hmemq => (hnone q hq) (by simpa using hmemq), ?_⟩
      show getSmartDefaultModel (m :: ms) = (m :: ms).head (by simp)
      rw [hres]
      rfl

/-- Witness for C3 at the spec's concrete example: requesting
`nonexistent:1b` against `codellama:7b` and `qwen2.5-coder:7b` resolves to
`qwen2.5-coder:7b` with the substitution flag set. -/
theorem resolver_substitution_witness :
    getSmartOllamaModel "nonexistent:1b" ["codellama:7b", "qwen2.5-coder:7b"] =
      Except.ok ⟨"qwen2.5-coder:7b", true, "nonexistent:1b"⟩ := by
  obtain ⟨outcome, ho, hsub, hreq, hcase⟩ :=
    resolver_substitution "nonexistent:1b" ["codellama:7b", "qwen2.5-coder:7b"]
      (by simp) (by decide)
  have hval : getSmartOllamaModel "nonexistent:1b" ["codellama:7b", "qwen2.5-coder:7b"] =
      Except.ok ⟨"qwen2.5-coder:7b", true, "nonexistent:1b"⟩ := by rfl
  exact ho.symm ▸ hval

/-- Claim C6 (resolver exact match): a requested model that is installed is
returned unchanged with `wasSubstituted = false`, regardless of the
priority list. -/
theorem resolver_exact_match (requestedModel : String) (installedModels : List String)
    (hmem : requestedModel ∈ installedModels) :
    getSmartOllamaModel requestedModel installedModels =
      Except.ok ⟨requestedModel, false, requestedModel⟩ := by
  obtain ⟨m, ms, rfl⟩ : ∃ m ms, installedModels = m :: ms := by
    cases installedModels with
    | nil => simp at hmem
    | cons m ms => exact ⟨m, ms, rfl⟩
  have hc : (m :: ms).contains requestedModel = true := by simpa using hmem
  unfold getSmartOllamaModel
  rw [if_neg (by simp : ¬ (m :: ms).length = 0), if_pos hc]

/-- Witness for C6: requesting an installed model returns it unchanged. -/
theorem resolver_exact_match_witness :
    getSmartOllamaModel "codellama:7b" ["codellama:7b", "qwen2.5-coder:7b"] =
      Except.ok ⟨"codellama:7b", false, "codellama:7b"⟩ :=
  resolver_exact_match "codellama:7b" ["codellama:7b", "qwen2.5-coder:7b"] (by simp)

/-- Counterexample for C4 as stated: `ModelUtils.getInstalledOllamaModels`,
one of the two probe implementations the claim covers, raises the error
`Ollama not running or not accessible` on a connection failure instead of
returning the empty set. -/
theorem probe_error_cex :
    getInstalledOllamaModels ProbeResult.connectionError =
      Except.error "Ollama not running or not accessible" ∧
    getInstalledOllamaModels ProbeResult.connectionError ≠
      Except.ok ([] : List String) :=
  ⟨rfl, fun h => Except.noConfusion h⟩

/-- Claim C4 (amended, probe error absorption): every failing probe call —
connection failure or timeout — makes `ConfigManager.getAvailableOllamaModels`,
the probe used on the resolution path, return the empty list,
indistinguishable from an empty inventory; its per-call timeout ceiling is
5000 ms; the `ModelUtils` variant instead surfaces an error. -/
theorem probe_error_absorption (r : ProbeResult)
    (hfail : ∀ models, r ≠ ProbeResult.ok models) :
    getAvailableOllamaModels r = [] ∧
    getAvailableOllamaModels r = getAvailableOllamaModels (ProbeResult.ok []) ∧
    probeTimeoutMs = 5000 ∧
    ∃ e, getInstalledOllamaModels r = Except.error e := by
  cases r with
  | ok models => exact absurd rfl (hfail models)
  | connectionError => exact ⟨rfl, rfl, rfl, _, rfl⟩
  | timedOut => exact ⟨rfl, rfl, rfl, _, rfl⟩

/-- Witness for amended C4 at the timeout outcome. -/
theorem probe_error_absorption_witness :
    getAvailableOllamaModels ProbeResult.timedOut = [] ∧
    getAvailableOllamaModels ProbeResult.timedOut =
      getAvailableOllamaModels (ProbeResult.ok []) ∧
    probeTimeoutMs = 5000 ∧
    ∃ e, getInstalledOllamaModels ProbeResult.timedOut = Except.error e :=
  probe_error_absorption ProbeResult.timedOut (fun _ h => ProbeResult.noConfusion h)

/-- Claim C5 (failure classifier mapping): a raw message containing
`ECONNREFUSED` or `not running` classifies as server-unreachable; otherwise
one containing `not found` or `does not exist` classifies as
model-not-found with the message kept; a message matching none of the
patterns is passed through unclassified and unchanged. -/
theorem classifier_mapping (rawMessage : String) :
    ((strIncludes rawMessage "ECONNREFUSED" = true ∨
        strIncludes rawMessage "not running" = true) →
      handleError rawMessage = (FailureKind.serverUnreachable, serverUnreachableMessage)) ∧
    (strIncludes rawMessage "ECONNREFUSED" = false →
      strIncludes rawMessage "not running" = false →
      (strIncludes rawMessage "not found" = true ∨
        strIncludes rawMessage "does not exist" = true) →
      handleError rawMessage = (FailureKind.modelNotFound, rawMessage)) ∧
    (strIncludes rawMessage "ECONNREFUSED" = false →
      strIncludes rawMessage "not running" = false →
      strIncludes rawMessage "not found" = false →
      strIncludes rawMessage "does not exist" = false →
      handleError rawMessage = (FailureKind.unclassified, rawMessage)) := by
  refine ⟨fun h => ?_, fun h1 h2 h3 => ?_, fun h1 h2 h3 h4 => ?_⟩
  · rcases h with h | h <;> simp [handleError, h]
  · rcases h3 with h3 | h3 <;> simp [handleError, h1, h2, h3]
  · simp [handleError, h1, h2, h3, h4]

/-- Witness for C5 on the spec's three example message shapes. -/
theorem classifier_mapping_witness :
    handleError "connect ECONNREFUSED 127.0.0.1:11434" =
      (FailureKind.serverUnreachable, serverUnreachableMessage) ∧
    handleError "model xyz was not found" =
      (FailureKind.modelNotFound, "model xyz was not found") ∧
    handleError "some unrelated failure" =
      (FailureKind.unclassified, "some unrelated failure") :=
  ⟨(classifier_mapping "connect ECONNREFUSED 127.0.0.1:11434").1 (Or.inl (by decide)),
   (classifier_mapping "model xyz was not found").2.1
     (by decide) (by decide) (Or.inl (by decide)),
   (classifier_mapping "some unrelated failure").2.2
     (by decide) (by decide) (by decide) (by decide)⟩

/-- Claim C7 (hardware advisor tiers and totality): `recommend` is total
over hardware profiles, its image is exactly the four tier
recommendations, and the tiers are keyed by the thresholds ≥32 GB with
accelerator, ≥16 GB with accelerator, ≥8 GB, and everything below. -/
theorem hardware_advisor_tiers (profile : HardwareProfile) :
    (recommend profile ∈
      [(⟨"ollama", "qwen2.5-coder:32b", "High-end: Best coding performance"⟩ :
          Recommendation),
        ⟨"ollama", "qwen2.5-coder:14b", "Mid-range: Excellent coding performance"⟩,
        ⟨"ollama", "qwen2.5-coder:7b", "Standard: Efficient and capable"⟩,
        ⟨"ollama", "qwen2.5-coder:1.5b", "Lightweight: Basic coding assistance"⟩]) ∧
    (32 ≤ profile.memoryGB ∧ profile.hasAccelerator = true →
      recommend profile =
        ⟨"ollama", "qwen2.5-coder:32b", "High-end: Best coding performance"⟩) ∧
    (16 ≤ profile.memoryGB ∧ profile.memoryGB < 32 ∧ profile.hasAccelerator = true →
      recommend profile =
        ⟨"ollama", "qwen2.5-coder:14b", "Mid-range: Excellent coding performance"⟩) ∧
    (8 ≤ profile.memoryGB ∧ (profile.hasAccelerator = false ∨ profile.memoryGB < 16) →
      recommend profile =
        ⟨"ollama", "qwen2.5-coder:7b", "Standard: Efficient and capable"⟩) ∧
    (profile.memoryGB < 8 →
      recommend profile =
        ⟨"ollama", "qwen2.5-coder:1.5b", "Lightweight: Basic coding assistance"⟩) := by
  obtain ⟨ram, gpu⟩ := profile
  simp only [recommend]
  unfold getModelForHardware
  refine ⟨?_, ?_, ?_, ?_, ?_⟩
  · split_ifs <;> simp
  · rintro ⟨h32, hg⟩
    split_ifs with c1 c2 c3
    · rfl
    · exact absurd ⟨h32, hg⟩ c1
    · exact absurd ⟨h32, hg⟩ c1
    · exact absurd ⟨h32, hg⟩ c1
  · rintro ⟨h16, h32, hg⟩
    split_ifs with c1 c2 c3
    · exact absurd c1.1 (by omega)
    · rfl
    · exact absurd ⟨h16, hg⟩ c2
    · exact absurd ⟨h16, hg⟩ c2
  · rintro ⟨h8, hcase⟩
    split_ifs with c1 c2
    · rcases hcase with hg | hlt
      · exact absurd c1.2 (by simp [hg])
      · exact absurd c1.1 (by omega)
    · rcases hcase with hg | hlt
      · exact absurd c2.2 (by simp [hg])
      · exact absurd c2.1 (by omega)
    · rfl
  · intro h8
    split_ifs with c1 c2 c3
    · exact absurd c1.1 (by omega)
    · exact absurd c2.1 (by omega)
    · exact absurd c3 (by omega)
    · rfl

/-- Witness for C7 at the spec's two concrete profiles. -/
theorem hardware_advisor_tiers_witness :
    recommend ⟨32, true⟩ =
      ⟨"ollama", "qwen2.5-coder:32b", "High-end: Best coding performance"⟩ ∧
    recommend ⟨4, false⟩ =
      ⟨"ollama", "qwen2.5-coder:1.5b", "Lightweight: Basic coding assistance"⟩ :=
  ⟨(hardware_advisor_tiers ⟨32, true⟩).2.1 ⟨by decide, rfl⟩,
   (hardware_advisor_tiers ⟨4, false⟩).2.2.2.2 (by decide)⟩

/-- On a credential-bearing backend, `isConfigured` is the truthiness of
the stored credential, and a falsy credential stops `sendMessage` at the
credential check, before any network request. -/
theorem gating_key (cfg : String → Option String) (nm k : String) :
    (isConfiguredFor cfg ⟨nm, some k⟩ = true ↔ ∃ s, cfg k = some s ∧ s ≠ "") ∧
    (isConfiguredFor cfg ⟨nm, some k⟩ = false →
      sendFirstStep cfg ⟨nm, some k⟩ = SendStep.credentialError) := by
  simp only [isConfiguredFor, sendFirstStep]
  cases hk : cfg k with
  | none => simp [truthy]
  | some s =>
    constructor
    · constructor
      · intro h
        refine ⟨s, rfl, ?_⟩
        intro hs
        subst hs
        exact absurd h (by decide)
      · rintro ⟨s2, hs2, hne⟩
        obtain rfl := Option.some.inj hs2
        simp only [truthy, Bool.not_eq_true']
        exact Bool.eq_false_iff.mpr
          (fun ht => hne (by simpa [String.isEmpty_iff] using ht))
    · intro h
      have hs : s.isEmpty = true := by
        simpa [truthy] using h
      simp [hs]

/-- Claim C8 (credential gating): for every backend registered in
`ProviderManager`, a credential-bearing backend is configured exactly when
a non-empty credential is stored under its key setting, and when the
credential is falsy its send operation stops with the credential-missing
error before any network request; the self-hosted Ollama backend reads no
key and is always configured. -/
theorem credential_gating :
    ∀ p ∈ registeredProviders, ∀ cfg : String → Option String,
      (p.name = "ollama" → p.keySetting = none ∧ isConfiguredFor cfg p = true) ∧
      (p.name ≠ "ollama" →
        ∃ k, p.keySetting = some k ∧
          (isConfiguredFor cfg p = true ↔ ∃ s, cfg k = some s ∧ s ≠ "") ∧
          (isConfiguredFor cfg p = false →
            sendFirstStep cfg p = SendStep.credentialError)) := by
  intro p hp cfg
  fin_cases hp <;>
    first
      | exact ⟨fun _ => ⟨rfl, rfl⟩, fun h => absurd rfl h⟩
      | exact ⟨fun h => absurd h (by decide),
          fun _ => ⟨_, rfl, (gating_key cfg _ _).1, (gating_key cfg _ _).2⟩⟩

/-- Witness for C8 on the Groq backend with an empty configuration. -/
theorem credential_gating_witness :
    ∃ k, (⟨"groq", some "groqApiKey"⟩ : ProviderInfo).keySetting = some k ∧
      (isConfiguredFor (fun _ => none) ⟨"groq", some "groqApiKey"⟩ = true ↔
        ∃ s, (none : Option String) = some s ∧ s ≠ "") ∧
      (isConfiguredFor (fun _ => none) ⟨"groq", some "groqApiKey"⟩ = false →
        sendFirstStep (fun _ => none) ⟨"groq", some "groqApiKey"⟩ =
          SendStep.credentialError) :=
  (credential_gating ⟨"groq", some "groqApiKey"⟩ (by decide) (fun _ => none)).2
    (by decide)

/-- Claim C9 (auto-setup frame condition): `autoSetup` overwrites the
stored default provider and model — setting them to `'ollama'` and the
smart default computed from the probed inventory — exactly when the
current default provider reads as `'ollama'` or `'groq'` and the probe
reports at least one installed model; in every other case, and on every
configuration field other than the two defaults, the configuration is left
unchanged. -/
theorem autoSetup_frame (cfg : StoredConfig) (probe : ProbeResult) :
    (autoSetup cfg probe).other = cfg.other ∧
    (((cfg.defaultProvider = some "ollama" ∨ cfg.defaultProvider = some "groq") ∧
        getAvailableOllamaModels probe ≠ []) →
      autoSetup cfg probe =
        { cfg with defaultProvider := some "ollama"
                 , defaultModel :=
                    some (getSmartDefaultModel (getAvailableOllamaModels probe)) }) ∧
    (¬ ((cfg.defaultProvider = some "ollama" ∨ cfg.defaultProvider = some "groq") ∧
        getAvailableOllamaModels probe ≠ []) →
      autoSetup cfg probe = cfg) := by
  unfold autoSetup
  by_cases hskip : cfg.defaultProvider ≠ some "ollama" ∧ cfg.defaultProvider ≠ some "groq"
  · rw [if_pos hskip]
    refine ⟨rfl, fun h => ?_, fun _ => rfl⟩
    rcases h.1 with h1 | h1
    · exact absurd h1 hskip.1
    · exact absurd h1 hskip.2
  · rw [if_neg hskip]
    by_cases hlen : 0 < (getAvailableOllamaModels probe).length
    · rw [if_pos hlen]
      refine ⟨rfl, fun _ => rfl, fun hno => absurd ⟨?_, ?_⟩ hno⟩
      · by_cases ho : cfg.defaultProvider = some "ollama"
        · exact Or.inl ho
        · by_cases hg : cfg.defaultProvider = some "groq"
          · exact Or.inr hg
          · exact absurd ⟨ho, hg⟩ hskip
      · intro hnil
        rw [hnil] at hlen
        simp at hlen
    · rw [if_neg hlen]
      refine ⟨rfl, fun h => ?_, fun _ => rfl⟩
      exfalso
      apply hlen
      cases hga : getAvailableOllamaModels probe with
      | nil => exact absurd hga h.2
      | cons a as => simp

/-- Witness for C9: a factory-default configuration with one installed
model is rewritten to Ollama with that model as the default. -/
theorem autoSetup_frame_witness :
    autoSetup ⟨some "ollama", some "stale-model", fun _ => none⟩
        (ProbeResult.ok ["llama2:latest"]) =
      ⟨some "ollama", some "llama2:latest", fun _ => none⟩ := by
  have h := (autoSetup_frame ⟨some "ollama", some "stale-model", fun _ => none⟩
      (ProbeResult.ok ["llama2:latest"])).2.1 ⟨Or.inl rfl, by simp [getAvailableOllamaModels]⟩
  rw [h]
  rfl

/-- Counterexample for C10 as stated: for the probe outcome whose
inventory consists of the single empty-string model name, the smart
default is the empty string — not a non-empty model name. -/
theorem smart_default_empty_name_cex :
    getSmartDefaultModelSafe (Except.ok [""]) = "" ∧
    (getSmartDefaultModelSafe (Except.ok [""])).isEmpty = true :=
  ⟨rfl, rfl⟩

/-- Claim C10 (amended): `getSmartDefaultModel` with its outer catch is
total: for every probe outcome it returns a member of the reported
inventory or the literal `qwen2.5-coder:7b` (hence a non-empty name
whenever every reported model name is non-empty); whenever the inventory
is empty or the probe call throws it returns exactly that literal; and the
literal is also what the provider-selection command stores as the default
model when the user switches to the self-hosted backend while no models
are installed. -/
theorem smart_default_total (probeOutcome : Except Unit (List String)) :
    (∀ models, probeOutcome = Except.ok models →
      getSmartDefaultModelSafe probeOutcome ∈ models ∨
        getSmartDefaultModelSafe probeOutcome = "qwen2.5-coder:7b") ∧
    (∀ models, probeOutcome = Except.ok models → (∀ m ∈ models, m ≠ "") →
      getSmartDefaultModelSafe probeOutcome ≠ "") ∧
    (probeOutcome = Except.ok [] →
      getSmartDefaultModelSafe probeOutcome = "qwen2.5-coder:7b") ∧
    (∀ u, probeOutcome = Except.error u →
      getSmartDefaultModelSafe probeOutcome = "qwen2.5-coder:7b") ∧
    (∀ (cfg : StoredConfig) (probe : ProbeResult),
      getAvailableOllamaModels probe = [] →
      (selectProviderUpdate cfg "ollama" probe).defaultProvider = some "ollama" ∧
      (selectProviderUpdate cfg "ollama" probe).defaultModel =
        some "qwen2.5-coder:7b") := by
  refine ⟨?_, ?_, ?_, ?_, ?_⟩
  · rintro models rfl
    exact getSmartDefaultModel_mem_or models
  · rintro models rfl hall h0
    rcases getSmartDefaultModel_mem_or models with hm | hl
    · exact hall _ hm h0
    · rw [show getSmartDefaultModelSafe (Except.ok models) =
          getSmartDefaultModel models from rfl, hl] at h0
      exact absurd h0 (by decide)
  · rintro rfl; rfl
  · rintro u rfl; rfl
  · intro cfg probe hempty
    unfold selectProviderUpdate
    rw [if_pos rfl]
    refine ⟨rfl, ?_⟩
    rw [hempty]
    rfl

/-- Witness for amended C10: an empty inventory yields the literal, and
switching to Ollama against an unreachable server stores the literal as
the default model. -/
theorem smart_default_total_witness :
    getSmartDefaultModelSafe (Except.ok ([] : List String)) = "qwen2.5-coder:7b" ∧
    (selectProviderUpdate ⟨some "groq", some "x", fun _ => none⟩ "ollama"
        ProbeResult.connectionError).defaultModel = some "qwen2.5-coder:7b" :=
  ⟨(smart_default_total (Except.ok [])).2.2.1 rfl,
   ((smart_default_total (Except.ok [])).2.2.2.2
      ⟨some "groq", some "x", fun _ => none⟩ ProbeResult.connectionError rfl).2⟩

end Vajra
